import Mathlib

/-!
Verification of the interview-generation coordination and quality-assurance
workflow (`interview_agent`): a shallow embedding of the coordinator pipeline,
the answer-tips generator, the quality-assurance agent, the response formatter
and the public entry-point validation, with theorems about the frozen claims.

Modelling conventions:
  - Python floats are modelled as exact rationals (`ℚ`); every score in this
    code is a small decimal literal, so no rounding subtleties are lost.
  - A Python call that may raise is modelled as `Except String α`, the error
    string standing for `str(exception)`.
  - Calls to the external text-generation service (the LLM agent objects) are
    modelled as oracle values supplied as explicit arguments: each run of the
    pipeline is a function of the request and of the outcomes of its external
    calls.
  - Python `str` iteration / substring tests are modelled on `String.data`
    (the list of characters).
-/

namespace InterviewAgent

/-- Substring test: Python `needle in hay` for strings. -/
def strContains (needle hay : String) : Bool :=
  decide (needle.data <:+: hay.data)

/-- Python `round(x, 2)`: rounding to two decimal places. Python rounds
half-to-even over binary floats; every value this code rounds is exact at two
decimals, where the rounding mode is irrelevant, so round-half-up is used. -/
def round2 (x : ℚ) : ℚ :=
  (⌊x * 100 + 1 / 2⌋ : ℚ) / 100

/-- Clamp a score into `[0, 1]`: `min(1.0, max(0.0, x))`. -/
def clamp01 (x : ℚ) : ℚ := min 1 (max 0 x)

/-- Average of a list of rationals; the callers guard emptiness themselves,
mirroring Python `sum(xs) / len(xs)`. -/
def listAvg (xs : List ℚ) : ℚ :=
  xs.sum / (xs.length : ℚ)

/-! ## Enumerations (`models/enhanced_models.py`, `models.py`) -/

/-- ExperienceLevel enum: the five seniority tiers. -/
inductive ExperienceLevel
  | junior | mid | senior | lead | principal
deriving DecidableEq, Repr

/-- The `.value` string of an `ExperienceLevel` member. -/
def ExperienceLevel.value : ExperienceLevel → String
  | .junior => "Junior"
  | .mid => "Mid"
  | .senior => "Senior"
  | .lead => "Lead"
  | .principal => "Principal"

/-- InterviewRound enum: the four interview rounds. -/
inductive InterviewRound
  | screening | technical | behavioral | final
deriving DecidableEq, Repr

/-- The integer `.value` of an `InterviewRound` member. -/
def InterviewRound.value : InterviewRound → ℤ
  | .screening => 1
  | .technical => 2
  | .behavioral => 3
  | .final => 4

/-- QualityMetrics (pydantic model): five scores in `[0,1]`. -/
structure QualityMetrics where
  relevance_score : ℚ
  clarity_score : ℚ
  completeness_score : ℚ
  consistency_score : ℚ
  overall_score : ℚ
deriving DecidableEq, Repr

/-! ## Python dictionary payloads

The generators exchange plain Python dicts.  Each dict shape that actually
occurs in the source is modelled as a structure whose fields are the keys the
producers write; a key that some producer omits is an `Option` field
(`none` = key absent, so a consumer's `.get(key, default)` takes the default).
A value that is a string in one producer and a list in another is a `PyVal`. -/

/-- A Python value that is either a string or a list of strings. -/
inductive PyVal
  | str (s : String)
  | list (l : List String)
deriving DecidableEq, Repr

/-- A question dict as consumed by the generators
(keys `question`, `type`, `difficulty`, `expected_duration`). -/
structure QuestionDict where
  question : Option String
  type : Option String
  difficulty : Option String
  expected_duration : Option ℤ
deriving DecidableEq, Repr

/-- An answer-tip dict as produced by `generate_answer_tips` (all keys
present) or by the coordinator's sample fallback (some keys absent). -/
structure TipDict where
  question : Option String
  question_type : Option String
  difficulty : Option String
  evaluation_tips : Option String
  what_to_listen_for : Option PyVal
  scoring_criteria : Option String
  red_flags : Option PyVal
  excellent_indicators : Option PyVal
  follow_up_questions : Option PyVal
  assessment_framework : Option String
  time_management : Option String
deriving DecidableEq, Repr

/-- A Python argument that the source sometimes passes as a string and
sometimes as a list of question dicts (`questions` in the generators). -/
inductive PyQuestions
  | str (s : String)
  | items (l : List QuestionDict)
deriving DecidableEq, Repr

/-- A Python argument that is either a string or a list of tip dicts
(`answer_tips` values). -/
inductive PyTips
  | str (s : String)
  | items (l : List TipDict)
deriving DecidableEq, Repr

/-! ## AnswerTipsGeneratorAgent (`agents/answer_tips_generator.py`) -/

/-- Loop body of `_extract_section`: walk the lines keeping an `in_section`
flag and the collected lines; a section-ending header line breaks out. -/
def extractSectionLoop (secLower : String) (inSection : Bool)
    (acc : List String) : List String → List String
  | [] => acc.reverse
  | line :: rest =>
    if strContains secLower line.toLower &&
        (strContains "**" line || strContains "#" line || strContains ":" line) then
      extractSectionLoop secLower true acc rest
    else if inSection && (strContains "**" line || line.startsWith "#") &&
        !strContains secLower line.toLower then
      acc.reverse
    else if inSection then
      extractSectionLoop secLower inSection (line.trim :: acc) rest
    else
      extractSectionLoop secLower inSection acc rest

/-- The `_extract_section` helper: pull one named section out of the raw
agent response (pure string processing; its `except` clause is unreachable
because none of these operations raise). -/
def extract_section (response sectionName : String) : String :=
  let content := extractSectionLoop sectionName.toLower false [] (response.splitOn "\n")
  if content ≠ [] then (String.intercalate "\n" content).trim
  else "Assess " ++ sectionName.toLower ++ " for this question type."

/-- The tip record built from a successful agent response for one question. -/
def successTip (q : QuestionDict) (response : String) : TipDict where
  question := some (q.question.getD "")
  question_type := some (q.type.getD "general")
  difficulty := some (q.difficulty.getD "intermediate")
  evaluation_tips := some response
  what_to_listen_for := some (.str (extract_section response "What to Listen For"))
  scoring_criteria := some (extract_section response "Scoring Criteria")
  red_flags := some (.str (extract_section response "Red Flags"))
  excellent_indicators := some (.str (extract_section response "Excellent Indicators"))
  follow_up_questions := some (.str (extract_section response "Follow-up Questions"))
  assessment_framework := some (extract_section response "Assessment Framework")
  time_management := some (extract_section response "Time Management")

/-- The fixed fallback tip substituted when tip generation fails for one
question (`role` is `context.get('role', 'Unknown Role')`). -/
def fallbackTip (role : String) (q : QuestionDict) : TipDict where
  question := some (q.question.getD "")
  question_type := some (q.type.getD "general")
  difficulty := some (q.difficulty.getD "intermediate")
  evaluation_tips := some ("Evaluate candidate's response for relevance, specificity, and alignment with "
    ++ role ++ " requirements.")
  what_to_listen_for := some (.list ["Specific examples", "Relevant experience", "Problem-solving approach"])
  scoring_criteria := some "Rate 1-5 based on relevance, depth, and clarity of response"
  red_flags := some (.list ["Vague answers", "Lack of examples", "Inconsistencies"])
  excellent_indicators := some (.list ["Concrete examples", "Measurable results", "Clear methodology"])
  follow_up_questions := some (.list ["Can you provide more details?", "What was the outcome?", "How did you measure success?"])
  assessment_framework := some "Structure, Content, Delivery, Relevance"
  time_management := some "2-4 minutes expected response time"

/-- One iteration of the `generate_answer_tips` loop: the agent call outcome
for question `i` decides between the response-derived record and the fixed
fallback record (the `except` around the call catches per question). -/
def answerTipRecord (role : String) (q : QuestionDict) :
    Except String String → TipDict
  | .ok response => successTip q response
  | .error _ => fallbackTip role q

/-- The `generate_answer_tips` method.  `questions` may be a list of question
dicts or (as the coordinator actually passes) a plain string; iterating a
string yields characters, and `question_data.get(...)` on a character raises
`AttributeError` before the per-question `try` is entered.  `oracle i` is the
outcome of the agent call for iteration `i`. -/
def generate_answer_tips (questions : PyQuestions) (role : String)
    (oracle : ℕ → Except String String) : Except String (List TipDict) :=
  match questions with
  | .str s =>
    match s.data with
    | [] => .ok []
    | _ :: _ => .error "'str' object has no attribute 'get'"
  | .items qs => .ok (qs.enum.map fun p => answerTipRecord role p.2 (oracle p.1))

/-! ## QualityAssuranceAgent (`agents/quality_assurance.py`) -/

/-- The six per-check flags of a consistency validation. -/
structure ValidationChecks where
  experience_level : Bool
  role_relevance : Bool
  round_focus : Bool
  difficulty_balance : Bool
  question_variety : Bool
  answer_alignment : Bool
deriving DecidableEq, Repr

/-- The consistency-validation result dict (both producers populate every
key, so the `.get(..., default)` reads downstream always find the key). -/
structure ConsistencyResults where
  overall_consistency : ℚ
  issues : List String
  recommendations : List String
  validation_checks : ValidationChecks
deriving DecidableEq, Repr

/-- The dict `_parse_consistency_results` returns: constants, computed
without looking at the response text. -/
def parse_consistency_results (_responseText : String) : ConsistencyResults where
  overall_consistency := 4 / 5
  issues := []
  recommendations := ["Content appears consistent"]
  validation_checks :=
    { experience_level := true, role_relevance := true, round_focus := true
      difficulty_balance := true, question_variety := true, answer_alignment := true }

/-- The dict `validate_consistency` returns from its `except` branch. -/
def consistencyFallback (errMsg : String) : ConsistencyResults where
  overall_consistency := 1 / 2
  issues := ["Validation error: " ++ errMsg]
  recommendations := ["Manual review recommended"]
  validation_checks :=
    { experience_level := false, role_relevance := false, round_focus := false
      difficulty_balance := false, question_variety := false, answer_alignment := false }

/-- The `validate_consistency` method.  The prompt is built before the `try`:
`_format_questions_for_validation` iterates `questions`, so a non-empty
string input raises `AttributeError` out of the method; otherwise the agent
call outcome selects the parsed constants or the fallback dict (`answers` is
never read by the body). -/
def validate_consistency (questions : PyQuestions) (_answers : PyTips)
    (oracle : Except String String) : Except String ConsistencyResults :=
  match questions with
  | .str s =>
    match s.data with
    | [] =>
      match oracle with
      | .ok r => .ok (parse_consistency_results r)
      | .error e => .ok (consistencyFallback e)
    | _ :: _ => .error "'str' object has no attribute 'get'"
  | .items _ =>
    match oracle with
    | .ok r => .ok (parse_consistency_results r)
    | .error e => .ok (consistencyFallback e)

/-- Outcome of one per-item quality-assessment call, as seen by
`assess_questions_quality` / `assess_answers_quality`.  The regex extraction
of the five raw scores in `_parse_quality_metrics` (with 0.7 defaults and a
mean-of-four default for `overall`) is folded into the collaborator outcome;
the `min(1.0, max(0.0, .))` clamping is applied here. -/
inductive AssessOutcome
  | callFailed
  | parseFailed
  | parsed (relevance clarity completeness consistency overall : ℚ)
deriving DecidableEq, Repr

/-- The metrics record an assessment loop iteration appends:
agent-call failure gives the 0.5 fallback record, a parse exception gives the
0.7 fallback record, and parsed raw scores are clamped into `[0,1]`. -/
def metricsOfOutcome : AssessOutcome → QualityMetrics
  | .callFailed =>
    { relevance_score := 1/2, clarity_score := 1/2, completeness_score := 1/2
      consistency_score := 1/2, overall_score := 1/2 }
  | .parseFailed =>
    { relevance_score := 7/10, clarity_score := 7/10, completeness_score := 7/10
      consistency_score := 7/10, overall_score := 7/10 }
  | .parsed r c p cs ov =>
    { relevance_score := clamp01 r, clarity_score := clamp01 c
      completeness_score := clamp01 p, consistency_score := clamp01 cs
      overall_score := clamp01 ov }

/-- The `assess_questions_quality` method.  Each iteration builds a prompt
from `question.get(...)` before its `try`, so iterating a non-empty string
raises `AttributeError` out of the method; over a list every per-item failure
is caught and replaced by fallback metrics. -/
def assess_questions_quality (questions : PyQuestions)
    (oracle : ℕ → AssessOutcome) : Except String (List QualityMetrics) :=
  match questions with
  | .str s =>
    match s.data with
    | [] => .ok []
    | _ :: _ => .error "'str' object has no attribute 'get'"
  | .items qs => .ok (qs.enum.map fun p => metricsOfOutcome (oracle p.1))

/-- The `assess_answers_quality` method: iterates `zip(answers, questions)`;
a character element from a string operand raises `AttributeError` in the
prompt construction (before the `try`), and the zip is empty when either
operand is empty. -/
def assess_answers_quality (answers : PyTips) (questions : PyQuestions)
    (oracle : ℕ → AssessOutcome) : Except String (List QualityMetrics) :=
  match answers, questions with
  | .str a, .str q =>
    if a.data = [] ∨ q.data = [] then .ok []
    else .error "'str' object has no attribute 'get'"
  | .str a, .items qs =>
    if a.data = [] ∨ qs = [] then .ok []
    else .error "'str' object has no attribute 'get'"
  | .items as, .str q =>
    if as = [] ∨ q.data = [] then .ok []
    else .error "'str' object has no attribute 'get'"
  | .items as, .items qs =>
    .ok ((as.zip qs).enum.map fun p => metricsOfOutcome (oracle p.1))

/-- The comprehensive quality report (pydantic `QualityAssessmentReport`). -/
structure QualityAssessmentReport where
  overall_assessment : String
  question_quality : List (String × ℚ)
  answer_quality : List (String × ℚ)
  consistency_analysis : ConsistencyResults
  improvement_suggestions : List String
  validation_results : ValidationChecks
deriving DecidableEq, Repr

/-- The assessment summary chosen by `generate_quality_report` from the
overall score (thresholds 0.9 / 0.7 / 0.5). -/
def assessmentLabel (overall : ℚ) : String :=
  if overall ≥ 9/10 then "Excellent quality - Ready for immediate use"
  else if overall ≥ 7/10 then "Good quality - Minor improvements recommended"
  else if overall ≥ 1/2 then "Acceptable quality - Some improvements needed"
  else "Below standard - Significant improvements required"

/-- The `generate_quality_report` method.  The two averages divide by
`len(question_metrics)` and `len(answer_metrics)` with no emptiness guard,
so an empty list raises `ZeroDivisionError`; `consistency_results` always
carries its keys (see `ConsistencyResults`), so the `.get` defaults are
never taken. -/
def generate_quality_report (question_metrics answer_metrics : List QualityMetrics)
    (consistency_results : ConsistencyResults) :
    Except String QualityAssessmentReport :=
  if question_metrics = [] ∨ answer_metrics = [] then
    .error "ZeroDivisionError: division by zero"
  else
    let avg_question_quality := listAvg (question_metrics.map (·.overall_score))
    let avg_answer_quality := listAvg (answer_metrics.map (·.overall_score))
    let overall_quality :=
      (avg_question_quality + avg_answer_quality + consistency_results.overall_consistency) / 3
    .ok
      { overall_assessment := assessmentLabel overall_quality
        question_quality := question_metrics.enum.map fun p =>
          ("question_" ++ toString (p.1 + 1), p.2.overall_score)
        answer_quality := answer_metrics.enum.map fun p =>
          ("answer_" ++ toString (p.1 + 1), p.2.overall_score)
        consistency_analysis := consistency_results
        improvement_suggestions :=
          (if avg_question_quality < 7/10 then ["Review question relevance and clarity"] else []) ++
          (if avg_answer_quality < 7/10 then ["Enhance answer depth and structure"] else []) ++
          (if consistency_results.overall_consistency < 7/10 then ["Improve consistency across content"] else []) ++
          consistency_results.recommendations
        validation_results := consistency_results.validation_checks }

/-! ## Shared request context and response models -/

/-- Per-agent performance record (pydantic `AgentPerformanceMetrics`). -/
structure AgentPerformanceMetrics where
  agent_name : String
  processing_time : ℚ
  token_usage : ℤ
  success_rate : ℚ
  error_count : ℤ
deriving DecidableEq, Repr

/-- The `context` dict built by `_phase1_document_analysis` (these are its
exact keys; the `.get('role', ...)`-style defaults of the consumers are never
taken for coordinator-built contexts). -/
structure Context where
  role : String
  level : ExperienceLevel
  round : InterviewRound
  num_questions : ℤ
  jd_content : String
  cv_content : String
  parallel_processing : Bool
  quality_assurance : Bool
deriving DecidableEq, Repr

/-- A formatted question (pydantic `EnhancedInterviewQuestion`; the `type`
field is kept as the raw string the dict carried — pydantic would coerce it
to the `QuestionType` enum, and every value constructed by this pipeline is
a valid member). -/
structure EnhancedInterviewQuestion where
  question : String
  type : String
  difficulty : String
  expected_duration : ℤ
  quality_metrics : QualityMetrics
  tags : List String
  follow_up_questions : List String
deriving DecidableEq, Repr

/-- A formatted answer tip (pydantic `EnhancedAnswerTips`). -/
structure EnhancedAnswerTips where
  question : String
  evaluation_tips : String
  what_to_listen_for : List String
  scoring_criteria : String
  red_flags : List String
  excellent_indicators : List String
  follow_up_questions : List String
  assessment_framework : String
  time_management : String
  quality_metrics : QualityMetrics
deriving DecidableEq, Repr

/-- The `questions_result` dict: produced either by
`QuestionGeneratorAgent.generate_questions` (string message, no
`quality_metrics` key) or by `_get_fallback_questions` (placeholder string,
empty `quality_metrics`). -/
structure QuestionsData where
  questions : PyQuestions
  status : String
  round_focus : Option String
  level : Option String
  role : Option String
  quality_metrics : Option (List QualityMetrics)
deriving DecidableEq, Repr

/-- The `answer_tips_result` dict: `{"answer_tips": ..., "status": ...}` on
success, or the `_get_fallback_answer_tips` dict. -/
structure AnswersData where
  answer_tips : PyTips
  status : String
  quality_metrics : Option (List QualityMetrics)
deriving DecidableEq, Repr

/-- The `quality_result` slot of a `ParallelProcessingResult`: the initial
`{}`, the quality-preparation dict, or the `_get_fallback_quality` dict. -/
inductive QualityTaskResult
  | emptyDict
  | prep (criteria_prepared : Bool) (assessment_framework validation_rules : String)
  | fallback (quality_assessment status : String)
deriving DecidableEq, Repr

/-- Result of phase 2 (pydantic `ParallelProcessingResult`); `none` models
the initial empty dict `{}` for a slot no task filled. -/
structure ParallelProcessingResult where
  questions_result : Option QuestionsData
  answer_tips_result : Option AnswersData
  quality_result : QualityTaskResult
  processing_time : ℚ
  success_status : List (String × Bool)
deriving DecidableEq, Repr

/-- The `quality_data` dict handed to the formatter: `{}` when quality
assurance is disabled, the dict `_perform_quality_assurance` assembles on
success, its `_get_fallback_quality_data` dict on failure, or the
`{"error": msg}` dict placed in an error response. -/
inductive QualityPayload
  | empty
  | assessed (question_quality answer_quality : List (String × ℚ))
      (consistency_analysis : ConsistencyResults)
      (quality_report : QualityAssessmentReport)
  | fallbackData
  | errorData (msg : String)
deriving DecidableEq, Repr

/-- The `generation_metadata` dict: the success shape from
`_create_generation_metadata` (which has no `error` key), or the error shape
`{"error": True, "error_message": msg}`. -/
inductive GenerationMetadata
  | success (generation_timestamp : String) (total_processing_time : ℚ)
      (total_token_usage : ℤ) (agents_used : List String)
      (parallel_processing_enabled quality_assurance_enabled : Bool)
  | errorMeta (error_message : String)
deriving DecidableEq, Repr

/-- Reading `generation_metadata["error"] == True`: the key is present (and
`True`) exactly in the error shape. -/
def GenerationMetadata.errorFlag : GenerationMetadata → Bool
  | .errorMeta _ => true
  | .success .. => false

/-- The `evaluation_framework` dict: nested sections on the success path, or
`{"error": msg}` in an error response. -/
inductive EvaluationFrameworkDict
  | sections (l : List (String × List (String × String)))
  | errorSection (msg : String)
deriving DecidableEq, Repr

/-- The terminal package (pydantic `EnhancedInterviewResponse`). -/
structure EnhancedInterviewResponse where
  questions : List EnhancedInterviewQuestion
  answer_tips : List EnhancedAnswerTips
  interview_focus : String
  preparation_tips : List String
  overall_quality_score : ℚ
  processing_metrics : List AgentPerformanceMetrics
  quality_report : QualityPayload
  generation_metadata : GenerationMetadata
  interview_structure : List (String × String)
  evaluation_framework : EvaluationFrameworkDict
  candidate_assessment_guide : List String
deriving DecidableEq, Repr

/-! ## FormatterAgent (`agents/formatter.py`) -/

/-- Fixed follow-up templates of `_generate_follow_up_questions`, keyed by
the question type (anything other than behavioral / technical / situational
falls into the cultural-fit branch); the first two are returned. -/
def generate_follow_up_questions (q : QuestionDict) : List String :=
  let question_type := q.type.getD "technical"
  let follow_ups :=
    if question_type = "behavioral" then
      ["What would you do differently if you faced a similar situation again?",
       "How did this experience change your approach to similar challenges?",
       "What did you learn from this experience?"]
    else if question_type = "technical" then
      ["How would you optimize this solution for better performance?",
       "What are the potential drawbacks of this approach?",
       "How would you handle edge cases in this scenario?"]
    else if question_type = "situational" then
      ["What factors would influence your decision-making process?",
       "How would you communicate this decision to stakeholders?",
       "What metrics would you use to measure success?"]
    else
      ["Can you give me a specific example of this?",
       "How do you think this aligns with our company values?",
       "What motivates you most about this aspect?"]
  follow_ups.take 2

/-- The `_generate_question_tags` helper.  `context['level']` is the
str-mixin `ExperienceLevel`, a non-empty string, so its lowercased value is
always appended. -/
def generate_question_tags (q : QuestionDict) (ctx : Context) : List String :=
  let role := ctx.role.toLower
  let role_tags :=
    if strContains "engineer" role then ["engineering"]
    else if strContains "manager" role then ["management"]
    else if strContains "data" role then ["data"]
    else if strContains "product" role then ["product"]
    else []
  [q.type.getD "technical", q.difficulty.getD "intermediate"] ++ role_tags ++
    [ctx.level.value.toLower]

/-- The `_format_questions` method: zips
`questions_data.get('questions', [])` with
`questions_data.get('quality_metrics', [])`.  When `questions` is a string
the zip pairs characters with metrics — empty whenever either side is empty,
and otherwise `question_data.get(...)` on a character raises
`AttributeError`. -/
def format_questions (questions_data : Option QuestionsData) (ctx : Context) :
    Except String (List EnhancedInterviewQuestion) :=
  match questions_data with
  | none => .ok []
  | some qd =>
    let quality_metrics := qd.quality_metrics.getD []
    match qd.questions with
    | .str s =>
      if s.data = [] ∨ quality_metrics = [] then .ok []
      else .error "'str' object has no attribute 'get'"
    | .items qs =>
      .ok ((qs.zip quality_metrics).map fun p =>
        { question := p.1.question.getD ""
          type := p.1.type.getD "technical"
          difficulty := p.1.difficulty.getD "intermediate"
          expected_duration := p.1.expected_duration.getD 5
          quality_metrics := p.2
          tags := generate_question_tags p.1 ctx
          follow_up_questions := generate_follow_up_questions p.1 })

/-- The interviewer-guidance dict (keys `preparation_tips`,
`interview_structure`, `assessment_guide`). -/
structure InterviewerGuidanceDict where
  preparation_tips : List String
  interview_structure : List (String × String)
  assessment_guide : List String
deriving DecidableEq, Repr

/-- The constants `_parse_interviewer_guidance` returns (it ignores the
response text). -/
def parsedInterviewerGuidance : InterviewerGuidanceDict where
  preparation_tips :=
    ["Review candidate's background thoroughly",
     "Prepare follow-up questions based on their experience",
     "Set up a comfortable interview environment",
     "Have evaluation criteria ready"]
  interview_structure :=
    [("introduction", "5 minutes - Welcome and role overview"),
     ("main_questions", "30-40 minutes - Core interview questions"),
     ("candidate_questions", "10 minutes - Candidate's questions"),
     ("wrap_up", "5 minutes - Next steps and closing")]
  assessment_guide :=
    ["Focus on specific examples and outcomes",
     "Assess both technical skills and cultural fit",
     "Take detailed notes for comparison",
     "Evaluate communication and problem-solving approach"]

/-- The constants `_get_default_interviewer_guidance` returns when the
guidance-generation call fails. -/
def defaultInterviewerGuidance : InterviewerGuidanceDict where
  preparation_tips :=
    ["Review job description and candidate resume",
     "Prepare follow-up questions",
     "Set up interview environment",
     "Have evaluation criteria ready"]
  interview_structure :=
    [("introduction", "5 minutes"), ("main_questions", "35 minutes"),
     ("candidate_questions", "10 minutes"), ("wrap_up", "5 minutes")]
  assessment_guide :=
    ["Focus on specific examples", "Assess technical and soft skills",
     "Take detailed notes", "Evaluate overall fit"]

/-- The constants `_parse_evaluation_framework` returns. -/
def parsedEvaluationFramework : EvaluationFrameworkDict :=
  .sections
    [("scoring_rubric",
      [("technical_skills", "1-5 scale based on depth and accuracy"),
       ("problem_solving", "1-5 scale based on approach and creativity"),
       ("communication", "1-5 scale based on clarity and engagement"),
       ("cultural_fit", "1-5 scale based on values alignment")]),
     ("decision_criteria",
      [("strong_hire", "4+ average across all areas"),
       ("hire", "3.5+ average with no major red flags"),
       ("no_hire", "Below 3.5 average or major concerns")]),
     ("documentation_template",
      [("strengths", "List candidate's key strengths"),
       ("concerns", "Note any areas of concern"),
       ("overall_assessment", "Summary recommendation"),
       ("next_steps", "Recommended next steps")])]

/-- The constants `_get_default_evaluation_framework` returns when the
framework-generation call fails. -/
def defaultEvaluationFramework : EvaluationFrameworkDict :=
  .sections
    [("scoring_rubric",
      [("technical_skills", "1-5 scale"), ("problem_solving", "1-5 scale"),
       ("communication", "1-5 scale"), ("cultural_fit", "1-5 scale")]),
     ("decision_criteria",
      [("strong_hire", "4+ average"), ("hire", "3.5+ average"),
       ("no_hire", "Below 3.5 average")])]

/-- The weighted composition inside `_calculate_overall_quality`, applied to
the score maps and the consistency value (with the 0.7 defaults for empty
score collections): `round(0.4*avg_q + 0.4*avg_a + 0.2*consistency, 2)`. -/
def weightedQuality (question_quality answer_quality : List (String × ℚ))
    (consistency_score : ℚ) : ℚ :=
  let question_scores := question_quality.map (·.2)
  let answer_scores := answer_quality.map (·.2)
  let avg_question_quality :=
    if question_scores = [] then 7/10 else listAvg question_scores
  let avg_answer_quality :=
    if answer_scores = [] then 7/10 else listAvg answer_scores
  round2 (avg_question_quality * (2/5) + avg_answer_quality * (2/5) +
    consistency_score * (1/5))

/-- The `_calculate_overall_quality` method over each reachable
`quality_data` shape: `{}` short-circuits to 0.7; the `{"error": msg}` dict
is non-empty but has no score keys, so every component defaults to 0.7. -/
def calculate_overall_quality : QualityPayload → ℚ
  | .empty => 7/10
  | .assessed qq aq cons _ => weightedQuality qq aq cons.overall_consistency
  | .fallbackData =>
    weightedQuality
      [("q_0", 7/10), ("q_1", 7/10), ("q_2", 7/10)]
      [("a_0", 7/10), ("a_1", 7/10), ("a_2", 7/10)] (7/10)
  | .errorData _ => weightedQuality [] [] (7/10)

/-- The `_generate_interview_focus` round descriptions. -/
def roundFocusDescription : InterviewRound → String
  | .screening => "Initial screening and basic qualification assessment"
  | .technical => "Deep technical evaluation and problem-solving skills"
  | .behavioral => "Behavioral assessment and cultural fit evaluation"
  | .final => "Final assessment and decision-making evaluation"

/-- The `_generate_interview_focus` method (the str-mixin enum renders via
its value in the f-string). -/
def generate_interview_focus (ctx : Context) : String :=
  roundFocusDescription ctx.round ++ " for a " ++ ctx.level.value ++ " " ++
    ctx.role ++ " position."

/-- The `_create_generation_metadata` method; the context dict has no
`timestamp` key, so the timestamp is `''`. -/
def create_generation_metadata (ctx : Context)
    (metrics : List AgentPerformanceMetrics) : GenerationMetadata :=
  .success ""
    (metrics.map (·.processing_time)).sum
    (metrics.map (·.token_usage)).sum
    (metrics.map (·.agent_name))
    ctx.parallel_processing ctx.quality_assurance

/-- The `create_final_output` method.  `_format_answers` reads
`answers_data.get('answers', [])`; both coordinator-produced dicts carry the
key `answer_tips` and never `answers`, so the formatted answers are `[]`.
The response is then constructed with `sample_answers=...`, which is not a
declared field of `EnhancedInterviewResponse` — pydantic ignores the unknown
keyword and the declared `answer_tips` field takes its default `[]`.
`guidanceOracle` / `frameworkOracle` are the two agent calls, whose parsed
results are constants and whose failures select the default constants. -/
def create_final_output (questions_data : Option QuestionsData)
    (_answers_data : Option AnswersData) (quality_data : QualityPayload)
    (performance_metrics : List AgentPerformanceMetrics) (ctx : Context)
    (guidanceOracle frameworkOracle : Except String String) :
    Except String EnhancedInterviewResponse :=
  match format_questions questions_data ctx with
  | .error e => .error e
  | .ok formatted_questions =>
    let guidance :=
      match guidanceOracle with
      | .ok _ => parsedInterviewerGuidance
      | .error _ => defaultInterviewerGuidance
    let evaluation_framework :=
      match frameworkOracle with
      | .ok _ => parsedEvaluationFramework
      | .error _ => defaultEvaluationFramework
    .ok
      { questions := formatted_questions
        answer_tips := []
        interview_focus := generate_interview_focus ctx
        preparation_tips := guidance.preparation_tips
        overall_quality_score := calculate_overall_quality quality_data
        processing_metrics := performance_metrics
        quality_report := quality_data
        generation_metadata := create_generation_metadata ctx performance_metrics
        interview_structure := guidance.interview_structure
        evaluation_framework := evaluation_framework
        candidate_assessment_guide := guidance.assessment_guide }

/-! ## EnhancedCoordinatorAgent (`agents/enhanced_coordinator.py`) -/

/-- The request (pydantic `EnhancedInterviewRequest`). -/
structure EnhancedInterviewRequest where
  jd_content : String
  cv_content : String
  role : String
  level : ExperienceLevel
  round_number : InterviewRound
  num_questions : ℤ
  enable_parallel_processing : Bool
  quality_assurance : Bool
  include_follow_ups : Bool
  custom_focus_areas : List String
  difficulty_preference : Option String
deriving DecidableEq, Repr

/-- Outcomes of the external calls one coordinator run can make.  `elapsed`
supplies the wall-clock duration recorded for each agent (keyed by agent
name); durations are external inputs and nothing downstream computes with
them. -/
structure Oracle where
  doc : Except String String
  questionGen : Except String String
  tipsAgent : ℕ → Except String String
  qaQuestionAssess : ℕ → AssessOutcome
  qaAnswerAssess : ℕ → AssessOutcome
  qaConsistency : Except String String
  guidance : Except String String
  framework : Except String String
  elapsed : String → ℚ

/-- One appended performance record (success_rate 1.0, error_count 0 —
the only values the source ever writes). -/
def perfMetric (name : String) (t : ℚ) (tokens : ℤ) : AgentPerformanceMetrics where
  agent_name := name
  processing_time := t
  token_usage := tokens
  success_rate := 1
  error_count := 0

/-- The context dict built from the request in `_phase1_document_analysis`. -/
def buildContext (req : EnhancedInterviewRequest) : Context where
  role := req.role
  level := req.level
  round := req.round_number
  num_questions := req.num_questions
  jd_content := req.jd_content
  cv_content := req.cv_content
  parallel_processing := req.enable_parallel_processing
  quality_assurance := req.quality_assurance

/-- The `_get_round_focus` strings of `QuestionGeneratorAgent`. -/
def question_generator_round_focus : InterviewRound → String
  | .screening => "Initial screening, basic qualifications, cultural fit, and motivation assessment"
  | .technical => "Deep technical evaluation, problem-solving skills, and role-specific competencies"
  | .behavioral => "Past experiences, leadership abilities, teamwork, and soft skills assessment"
  | .final => "Strategic thinking, long-term vision, final cultural fit, and decision-making"

/-- The `_generate_basic_questions` template — always a non-empty string
(the enum interpolations render differently across Python versions; only the
string's non-emptiness is ever observable, because the tips generator
iterates it and raises on its first character). -/
def generate_basic_questions (ctx : Context) : String :=
  "\n" ++ "        Basic interview questions for " ++ ctx.level.value ++ " " ++
    ctx.role ++ " - Round " ++ toString ctx.round.value ++ ":\n        \n" ++
    "        1. Tell me about your experience with " ++ ctx.role.toLower ++
    " responsibilities.\n" ++
    "        2. Describe a challenging project you worked on recently.\n" ++
    "        3. How do you approach problem-solving in your work?\n" ++
    "        4. What technologies or tools are you most comfortable with?\n" ++
    "        5. How do you stay updated with industry trends and best practices?\n        "

/-- The `_get_fallback_questions` dict: a placeholder string under
`questions`, with an empty `quality_metrics` list. -/
def fallbackQuestionsData : QuestionsData where
  questions := .str "Fallback questions generated"
  status := "fallback"
  round_focus := none
  level := none
  role := none
  quality_metrics := some []

/-- The `_get_fallback_answer_tips` dict. -/
def fallbackAnswerTipsData : AnswersData where
  answer_tips := .str "Fallback evaluation tips generated"
  status := "fallback"
  quality_metrics := some []

/-- The `_get_fallback_quality` dict. -/
def fallbackQualityTask : QualityTaskResult :=
  .fallback "Basic quality check completed" "fallback"

/-- The `_generate_questions_async` task: on success it returns the
question-generator dict (note: the generated questions are the raw response
message, a string under the `questions` key, with no `quality_metrics` key)
and appends its metric; on failure it re-raises with the
`Question generation failed:` prefix and appends nothing. -/
def generate_questions_async (ctx : Context) (o : Oracle) :
    Except String QuestionsData × List AgentPerformanceMetrics :=
  match o.questionGen with
  | .ok message =>
    (.ok
      { questions := .str message
        round_focus := some (question_generator_round_focus ctx.round)
        level := some ctx.level.value
        role := some ctx.role
        status := "completed"
        quality_metrics := none },
     [perfMetric "QuestionGenerator" (o.elapsed "QuestionGenerator") 2000])
  | .error e => (.error ("Question generation failed: " ++ e), [])

/-- The `_generate_answer_tips_async` task: it passes the basic-questions
string (not a list) to `generate_answer_tips`, which therefore raises
`AttributeError` on the string's first character; the task re-raises with
the `Answer tips generation failed:` prefix. -/
def generate_answer_tips_async (ctx : Context) (o : Oracle) :
    Except String AnswersData × List AgentPerformanceMetrics :=
  match generate_answer_tips (.str (generate_basic_questions ctx)) ctx.role
      o.tipsAgent with
  | .ok tips =>
    (.ok { answer_tips := .items tips, status := "completed", quality_metrics := none },
     [perfMetric "AnswerTipsGenerator" (o.elapsed "AnswerTipsGenerator") 2500])
  | .error e => (.error ("Answer tips generation failed: " ++ e), [])

/-- The `_prepare_quality_assessment_async` task: the body only builds a
constant dict, so nothing in its `try` can raise. -/
def prepare_quality_assessment_async (o : Oracle) :
    QualityTaskResult × List AgentPerformanceMetrics :=
  (.prep true "ready" "loaded",
   [perfMetric "QualityPreparation" (o.elapsed "QualityPreparation") 500])

/-- One element of the `asyncio.gather(..., return_exceptions=True)` result
list: a per-task payload, or the exception the task raised. -/
inductive TaskResult
  | questionsR (d : QuestionsData)
  | answerTipsR (d : AnswersData)
  | qualityR (d : QualityTaskResult)
  | exc (msg : String)
deriving DecidableEq, Repr

/-- Wrap a task outcome into a gathered `TaskResult`. -/
def toTaskResult {α} (wrap : α → TaskResult) : Except String α → TaskResult
  | .ok d => wrap d
  | .error m => .exc m

/-- Accumulator of the result-processing loop of
`_phase2_parallel_generation` (the four local variables it mutates). -/
structure GatherAcc where
  success_status : List (String × Bool)
  questions_result : Option QuestionsData
  answer_tips_result : Option AnswersData
  quality_result : QualityTaskResult
deriving DecidableEq, Repr

/-- One iteration of the result-processing loop: an exception marks its task
failed and installs that task's fallback dict; any other result marks its
task successful and is stored unchanged.  (The source keys the assignment by
`task_name`; the task list always pairs each payload with its own name, and
the fallback dicts ignore their `context` argument.) -/
def processOneResult (acc : GatherAcc) : TaskResult × String → GatherAcc
  | (.exc _, task_name) =>
    let acc := { acc with success_status := acc.success_status ++ [(task_name, false)] }
    if task_name = "questions" then
      { acc with questions_result := some fallbackQuestionsData }
    else if task_name = "answer_tips" then
      { acc with answer_tips_result := some fallbackAnswerTipsData }
    else if task_name = "quality" then
      { acc with quality_result := fallbackQualityTask }
    else acc
  | (.questionsR d, task_name) =>
    { acc with success_status := acc.success_status ++ [(task_name, true)]
               questions_result := some d }
  | (.answerTipsR d, task_name) =>
    { acc with success_status := acc.success_status ++ [(task_name, true)]
               answer_tips_result := some d }
  | (.qualityR d, task_name) =>
    { acc with success_status := acc.success_status ++ [(task_name, true)]
               quality_result := d }

/-- The result-processing stage of `_phase2_parallel_generation`: fold the
loop over the gathered `(result, task_name)` pairs and package the
accumulator (the surrounding `try` cannot fire — `gather` with
`return_exceptions=True` returns exceptions as values and the loop body
raises nothing — so the phase always returns a `ParallelProcessingResult`). -/
def processGatherResults (results : List (TaskResult × String)) (t : ℚ) :
    ParallelProcessingResult :=
  let acc := results.foldl processOneResult
    { success_status := [], questions_result := none
      answer_tips_result := none, quality_result := .emptyDict }
  { questions_result := acc.questions_result
    answer_tips_result := acc.answer_tips_result
    quality_result := acc.quality_result
    processing_time := t
    success_status := acc.success_status }

/-- The `_phase2_parallel_generation` method: create the question / tips
tasks (plus the quality task when quality assurance is on), gather with
exceptions returned as values, and process the results.  Per-task metric
lists are concatenated in task order: their counts and contents are
scheduler-independent, only their interleaving is not guaranteed by the
source. -/
def phase2_parallel_generation (ctx : Context) (o : Oracle) :
    ParallelProcessingResult × List AgentPerformanceMetrics :=
  let (qOut, msQ) := generate_questions_async ctx o
  let (tOut, msT) := generate_answer_tips_async ctx o
  let base := [(toTaskResult .questionsR qOut, "questions"),
               (toTaskResult .answerTipsR tOut, "answer_tips")]
  if ctx.quality_assurance then
    let (prep, msP) := prepare_quality_assessment_async o
    (processGatherResults (base ++ [(TaskResult.qualityR prep, "quality")])
      (o.elapsed "Phase2"), msQ ++ msT ++ msP)
  else
    (processGatherResults base (o.elapsed "Phase2"), msQ ++ msT)

/-- The `_phase2_sequential_generation` method: questions, then tips, then
quality preparation, strictly in order; the first exception is re-raised
with the `Sequential generation failed:` prefix (its `success_status` is the
constant all-true dict, written even when quality assurance is off). -/
def phase2_sequential_generation (ctx : Context) (o : Oracle) :
    Except String ParallelProcessingResult × List AgentPerformanceMetrics :=
  match generate_questions_async ctx o with
  | (.error m, ms) => (.error ("Sequential generation failed: " ++ m), ms)
  | (.ok qd, msQ) =>
    match generate_answer_tips_async ctx o with
    | (.error m, msT) => (.error ("Sequential generation failed: " ++ m), msQ ++ msT)
    | (.ok ad, msT) =>
      let (quality_result, msP) :=
        if ctx.quality_assurance then prepare_quality_assessment_async o
        else (.emptyDict, [])
      (.ok
        { questions_result := some qd
          answer_tips_result := some ad
          quality_result := quality_result
          processing_time := o.elapsed "Phase2"
          success_status := [("questions", true), ("answer_tips", true), ("quality", true)] },
       msQ ++ msT ++ msP)

/-- One of the three sample dicts `_extract_questions_from_result` invents
when the result is neither a dict with a `questions` key nor a list. -/
def sampleQuestion (i : ℕ) : QuestionDict where
  question := some ("Sample question " ++ toString i)
  type := some "technical"
  difficulty := some "intermediate"
  expected_duration := none

/-- One of the three sample dicts `_extract_answer_tips_from_result`
invents (it omits several tip keys). -/
def sampleAnswerTip (i : ℕ) : TipDict where
  question := some ("Sample question " ++ toString i)
  question_type := none
  difficulty := none
  evaluation_tips := some ("Sample evaluation tips " ++ toString i)
  what_to_listen_for := some (.list ["Specific examples", "Clear reasoning"])
  scoring_criteria := none
  red_flags := some (.list ["Vague responses", "Lack of examples"])
  excellent_indicators := some (.list ["Concrete examples", "Measurable results"])
  follow_up_questions := none
  assessment_framework := none
  time_management := none

/-- The `_extract_questions_from_result` helper: a filled slot is a dict
with a `questions` key, whose value is used; the empty dict `{}` falls to
the sample fallback. -/
def extract_questions_from_result : Option QuestionsData → PyQuestions
  | some d => d.questions
  | none => .items [sampleQuestion 1, sampleQuestion 2, sampleQuestion 3]

/-- The `_extract_answer_tips_from_result` helper, same shape. -/
def extract_answer_tips_from_result : Option AnswersData → PyTips
  | some d => d.answer_tips
  | none => .items [sampleAnswerTip 1, sampleAnswerTip 2, sampleAnswerTip 3]

/-- The `_perform_quality_assurance` method: extract, assess questions,
assess answers, validate consistency, build the report; any exception along
the way (in particular the `AttributeError` from assessing a string of
questions, and the `ZeroDivisionError` from a report over empty metrics)
lands in the `except`, which returns `_get_fallback_quality_data` and skips
the metric append.  On success the score maps apply `extract_score` to each
metrics object (the `overall_score` attribute is present and the object is
truthy, so the `if m` filter drops nothing). -/
def perform_quality_assurance (generation_result : ParallelProcessingResult)
    (o : Oracle) : QualityPayload × List AgentPerformanceMetrics :=
  let questions := extract_questions_from_result generation_result.questions_result
  let answer_tips := extract_answer_tips_from_result generation_result.answer_tips_result
  match assess_questions_quality questions o.qaQuestionAssess with
  | .error _ => (.fallbackData, [])
  | .ok question_metrics =>
    match assess_answers_quality answer_tips questions o.qaAnswerAssess with
    | .error _ => (.fallbackData, [])
    | .ok answer_metrics =>
      match validate_consistency questions answer_tips o.qaConsistency with
      | .error _ => (.fallbackData, [])
      | .ok consistency_results =>
        match generate_quality_report question_metrics answer_metrics consistency_results with
        | .error _ => (.fallbackData, [])
        | .ok quality_report =>
          (.assessed
            (question_metrics.enum.map fun p => ("q_" ++ toString p.1, p.2.overall_score))
            (answer_metrics.enum.map fun p => ("a_" ++ toString p.1, p.2.overall_score))
            consistency_results quality_report,
           [perfMetric "QualityAssurance" (o.elapsed "QualityAssurance") 1200])

/-- The all-zero metrics of an error response. -/
def errorQualityMetrics : QualityMetrics where
  relevance_score := 0
  clarity_score := 0
  completeness_score := 0
  consistency_score := 0
  overall_score := 0

/-- The fixed answer-tip record of an error response (none of its fields
depends on the error message). -/
def errorAnswerTip : EnhancedAnswerTips where
  question := "Error occurred"
  evaluation_tips := "Please check the input parameters and try again."
  what_to_listen_for := ["Error resolution"]
  scoring_criteria := "N/A - Error state"
  red_flags := ["System errors"]
  excellent_indicators := ["Successful retry"]
  follow_up_questions := ["What caused this error?"]
  assessment_framework := "Error handling"
  time_management := "Immediate resolution needed"
  quality_metrics := errorQualityMetrics

/-- The question record of an error response (its text embeds the error
message). -/
def errorQuestion (error_message : String) : EnhancedInterviewQuestion where
  question := "Error occurred during generation: " ++ error_message
  type := "technical"
  difficulty := "basic"
  expected_duration := 1
  quality_metrics := errorQualityMetrics
  tags := ["error"]
  follow_up_questions := []

/-- The `_create_error_response` method: one error question, the fixed
error tip, zeroed quality, the error-shaped metadata, and whatever
performance metrics had accumulated when the failure surfaced. -/
def create_error_response (error_message : String)
    (metrics : List AgentPerformanceMetrics) : EnhancedInterviewResponse where
  questions := [errorQuestion error_message]
  answer_tips := [errorAnswerTip]
  interview_focus := "Error in generation process"
  preparation_tips := ["Please retry with valid inputs"]
  overall_quality_score := 0
  processing_metrics := metrics
  quality_report := .errorData error_message
  generation_metadata := .errorMeta error_message
  interview_structure := [("error", "Generation failed")]
  evaluation_framework := .errorSection "Not available"
  candidate_assessment_guide := ["Manual assessment required due to error"]

/-- The coordinator's `generate_interview_content_async`:
`performance_metrics` is reset to `[]`, then phase 1 (document analysis,
fatal on failure), phase 2 (parallel or sequential), phase 3 (optional
quality assurance, then formatting); any exception reaching the top level
becomes `_create_error_response` over the metrics recorded so far.  The
`QualityAssurance+Formatter` and `EnhancedCoordinator` records are appended
only after the response model was already validated (pydantic validates a
fresh copy of the metrics list into the model), so they never appear in the
returned package. -/
def generate_interview_content_async (req : EnhancedInterviewRequest)
    (o : Oracle) : EnhancedInterviewResponse :=
  match o.doc with
  | .error e => create_error_response ("Document analysis failed: " ++ e) []
  | .ok _analysis =>
    let ctx := buildContext req
    let ms1 := [perfMetric "DocumentProcessor" (o.elapsed "DocumentProcessor") 1500]
    let phase2 :=
      if req.enable_parallel_processing then
        let (r, ms) := phase2_parallel_generation ctx o
        (Except.ok r, ms)
      else phase2_sequential_generation ctx o
    match phase2 with
    | (.error e, ms2) => create_error_response e (ms1 ++ ms2)
    | (.ok generation_result, ms2) =>
      let (quality_data, msQA) :=
        if req.quality_assurance then perform_quality_assurance generation_result o
        else (.empty, [])
      match create_final_output generation_result.questions_result
          generation_result.answer_tips_result quality_data
          (ms1 ++ ms2 ++ msQA) ctx o.guidance o.framework with
      | .error e => create_error_response ("Finalization failed: " ++ e) (ms1 ++ ms2 ++ msQA)
      | .ok final_response => final_response

/-! ## Public entry point (`main.py`) -/

/-- The `_validate_inputs` method.  Python falsiness: an empty role / level
string and a zero round number trip the `required` checks. -/
def validate_inputs (role level : String) (round_number : ℤ) :
    Except String Unit :=
  if role = "" then .error "Role is required"
  else if level = "" then .error "Experience level is required"
  else if round_number = 0 then .error "Round number is required"
  else if role.trim.length < 3 then .error "Role must be at least 3 characters long"
  else .ok ()

/-- The `_convert_level` method over a string argument: the
`ExperienceLevel(level)` constructor accepts exactly the five member values
and raises `ValueError` otherwise. -/
def convert_level (level : String) : Except String ExperienceLevel :=
  if level = "Junior" then .ok .junior
  else if level = "Mid" then .ok .mid
  else if level = "Senior" then .ok .senior
  else if level = "Lead" then .ok .lead
  else if level = "Principal" then .ok .principal
  else .error ("Invalid experience level: " ++ level)

/-- The `_convert_round` method over an integer argument: the
`InterviewRound(round_number)` constructor accepts 1-4 and raises
`ValueError` otherwise. -/
def convert_round (round_number : ℤ) : Except String InterviewRound :=
  if round_number = 1 then .ok .screening
  else if round_number = 2 then .ok .technical
  else if round_number = 3 then .ok .behavioral
  else if round_number = 4 then .ok .final
  else .error ("Invalid round number: " ++ toString round_number ++ ". Must be 1-4")

/-- The public `InterviewAgent.generate_interview_content_async` up to the
coordinator hand-off, with the contents passed directly (the file-extraction
branches are external collaborators).  It validates, converts the level and
round, checks the contents, and only then builds the request it gives the
coordinator — the value of a successful run here is exactly the request the
coordinator (and hence the first text-generation service call) would
receive, so an error means zero service invocations occurred. -/
def interview_agent_entry (jd_content cv_content role level : String)
    (round_number num_questions : ℤ)
    (enable_parallel_processing quality_assurance include_follow_ups : Bool) :
    Except String EnhancedInterviewRequest :=
  match validate_inputs role level round_number with
  | .error e => .error e
  | .ok _ =>
    match convert_level level with
    | .error e => .error e
    | .ok lvl =>
      match convert_round round_number with
      | .error e => .error e
      | .ok rnd =>
        if jd_content = "" then .error "Job description content or file is required"
        else if cv_content = "" then .error "CV content or file is required"
        else .ok
          { jd_content := jd_content
            cv_content := cv_content
            role := role
            level := lvl
            round_number := rnd
            num_questions := num_questions
            enable_parallel_processing := enable_parallel_processing
            quality_assurance := quality_assurance
            include_follow_ups := include_follow_ups
            custom_focus_areas := []
            difficulty_preference := none }

/-! ## Concrete fixtures for witnesses and counterexamples -/

/-- A representative valid request. -/
def sampleRequest (par qa : Bool) : EnhancedInterviewRequest where
  jd_content := "Design and build backend APIs"
  cv_content := "Ten years of Python development"
  role := "Software Engineer"
  level := .senior
  round_number := .technical
  num_questions := 5
  enable_parallel_processing := par
  quality_assurance := qa
  include_follow_ups := true
  custom_focus_areas := []
  difficulty_preference := none

/-- An oracle on which every external service call succeeds. -/
def okOracle : Oracle where
  doc := .ok "Document analysis: strong alignment."
  questionGen := .ok "1. Describe a recent project.\n2. How do you test your code?"
  tipsAgent := fun _ => .ok "Tips response"
  qaQuestionAssess := fun _ => .parsed (4/5) (4/5) (4/5) (4/5) (4/5)
  qaAnswerAssess := fun _ => .parsed (4/5) (4/5) (4/5) (4/5) (4/5)
  qaConsistency := .ok "Looks consistent."
  guidance := .ok "Guidance text."
  framework := .ok "Framework text."
  elapsed := fun _ => 0

/-- The all-success oracle with only the document-analysis call raising. -/
def docFailOracle (msg : String) : Oracle :=
  { okOracle with doc := .error msg }

/-- Five concrete questions: a batch whose tip oracle fails only at
index 2. -/
def c5questions : List QuestionDict :=
  [⟨some "Walk me through a recent API design.", some "technical", some "intermediate", some 5⟩,
   ⟨some "Tell me about a production incident.", some "behavioral", some "advanced", some 7⟩,
   ⟨some "How do you review code?", some "technical", some "intermediate", some 5⟩,
   ⟨some "Describe a conflict you resolved.", some "behavioral", some "intermediate", some 6⟩,
   ⟨some "How would you scale this system?", some "situational", some "advanced", some 8⟩]

/-- The tip oracle that raises only for the question at index 2. -/
def c5oracle : ℕ → Except String String :=
  fun j => if j = 2 then .error "timeout" else .ok ("Response " ++ toString j)

/-- Whether any field of an answer-tip record mentions `msg` as a
substring. -/
def tipMentions (t : EnhancedAnswerTips) (msg : String) : Bool :=
  strContains msg t.question || strContains msg t.evaluation_tips ||
  t.what_to_listen_for.any (fun s => strContains msg s) ||
  strContains msg t.scoring_criteria ||
  t.red_flags.any (fun s => strContains msg s) ||
  t.excellent_indicators.any (fun s => strContains msg s) ||
  t.follow_up_questions.any (fun s => strContains msg s) ||
  strContains msg t.assessment_framework ||
  strContains msg t.time_management

/-- One quality-metrics record whose scores all equal `x`. -/
def uniformMetrics (x : ℚ) : QualityMetrics where
  relevance_score := x
  clarity_score := x
  completeness_score := x
  consistency_score := x
  overall_score := x

/-- Question metrics averaging 0.9. -/
def c6questionMetrics : List QualityMetrics := [uniformMetrics (9/10)]

/-- Answer metrics averaging 0.6 (no single score equals 0.6). -/
def c6answerMetrics : List QualityMetrics :=
  [uniformMetrics (7/10), uniformMetrics (1/2)]

/-- A consistency result whose overall score is 0.3. -/
def c6consistency : ConsistencyResults where
  overall_consistency := 3/10
  issues := []
  recommendations := []
  validation_checks :=
    { experience_level := true, role_relevance := true, round_focus := true
      difficulty_balance := true, question_variety := true, answer_alignment := true }

/-- The report `generate_quality_report` produces from the C6 metrics. -/
def c6report : QualityAssessmentReport where
  overall_assessment := "Acceptable quality - Some improvements needed"
  question_quality := [("question_1", 9/10)]
  answer_quality := [("answer_1", 7/10), ("answer_2", 1/2)]
  consistency_analysis := c6consistency
  improvement_suggestions :=
    ["Enhance answer depth and structure", "Improve consistency across content"]
  validation_results := c6consistency.validation_checks

/-- The quality payload `_perform_quality_assurance` would assemble from the
C6 metrics (its score maps plus the generated report). -/
def c6payload : QualityPayload :=
  match generate_quality_report c6questionMetrics c6answerMetrics c6consistency with
  | .ok rep => .assessed [("q_0", 9/10)] [("a_0", 7/10), ("a_1", 1/2)] c6consistency rep
  | .error _ => .empty

/-- The context of the C6 package. -/
def c6context : Context := buildContext (sampleRequest true true)

/-- The final package built by the formatter over the C6 quality payload. -/
def c6package : EnhancedInterviewResponse :=
  match create_final_output (some fallbackQuestionsData) (some fallbackAnswerTipsData)
      c6payload [] c6context (.ok "guidance text") (.ok "framework text") with
  | .ok r => r
  | .error e => create_error_response e []

/-- The five scores of a metrics record. -/
def metricsScores (m : QualityMetrics) : List ℚ :=
  [m.relevance_score, m.clarity_score, m.completeness_score,
   m.consistency_score, m.overall_score]

/-- The numeric content of a quality payload. -/
def qualityPayloadScores : QualityPayload → List ℚ
  | .empty => []
  | .errorData _ => []
  | .fallbackData => [7/10, 7/10, 7/10, 7/10, 7/10, 7/10, 7/10]
  | .assessed qq aq cons rep =>
    qq.map (·.2) ++ aq.map (·.2) ++ [cons.overall_consistency] ++
      rep.question_quality.map (·.2) ++ rep.answer_quality.map (·.2) ++
      [rep.consistency_analysis.overall_consistency]

/-- Every rational number stored anywhere in a final package: the overall
score, all per-record quality metrics, all performance numbers, the quality
payload's numbers and the metadata total (integral token counts are included
as rationals for completeness). -/
def packageScores (r : EnhancedInterviewResponse) : List ℚ :=
  [r.overall_quality_score] ++
  (r.questions.map (·.quality_metrics)).flatMap metricsScores ++
  (r.answer_tips.map (·.quality_metrics)).flatMap metricsScores ++
  r.processing_metrics.map (·.processing_time) ++
  r.processing_metrics.map (·.success_rate) ++
  r.processing_metrics.map (fun m => (m.token_usage : ℚ)) ++
  r.processing_metrics.map (fun m => (m.error_count : ℚ)) ++
  qualityPayloadScores r.quality_report ++
  (match r.generation_metadata with
   | .success _ t tok _ _ _ => [t, (tok : ℚ)]
   | .errorMeta _ => [])

/-! ## Helper lemmas -/

/-- The basic-questions template always starts with a newline, hence is a
non-empty string. -/
theorem generate_basic_questions_data (ctx : Context) :
    ∃ cs, (generate_basic_questions ctx).data = '\n' :: cs := by
  have h : ("\n" : String).data = ['\n'] := rfl
  simp only [generate_basic_questions, String.data_append, h, List.singleton_append,
    List.cons_append]
  exact ⟨_, rfl⟩

/-- The coordinator's answer-tips task always fails: it hands the tips
generator a non-empty string of questions, whose first character raises
`AttributeError`. -/
theorem generate_answer_tips_async_fails (ctx : Context) (o : Oracle) :
    generate_answer_tips_async ctx o =
      (.error "Answer tips generation failed: 'str' object has no attribute 'get'", []) := by
  obtain ⟨cs, hcs⟩ := generate_basic_questions_data ctx
  simp [generate_answer_tips_async, generate_answer_tips, hcs]

/-- Quality assurance always falls back when the extracted questions are a
string: a non-empty string raises `AttributeError` in the question
assessment, and an empty one leads to empty metric lists whose report
raises `ZeroDivisionError`. -/
theorem perform_qa_falls_back (gen : ParallelProcessingResult) (o : Oracle)
    (d : QuestionsData) (s : String)
    (hq : gen.questions_result = some d) (hs : d.questions = .str s) :
    perform_quality_assurance gen o = (.fallbackData, []) := by
  unfold perform_quality_assurance
  rw [show extract_questions_from_result gen.questions_result = .str s by
    rw [hq]; simp [extract_questions_from_result, hs]]
  rcases hdata : s.data with _ | ⟨c, cs⟩
  · have h1 : assess_questions_quality (.str s) o.qaQuestionAssess = .ok [] := by
      simp [assess_questions_quality, hdata]
    have h2 : assess_answers_quality
        (extract_answer_tips_from_result gen.answer_tips_result) (.str s)
        o.qaAnswerAssess = .ok [] := by
      cases extract_answer_tips_from_result gen.answer_tips_result with
      | str t => simp [assess_answers_quality, hdata]
      | items ts =>
        cases ts with
        | nil => simp [assess_answers_quality]
        | cons x xs => simp [assess_answers_quality, hdata]
    simp only [h1, h2]
    cases hc : o.qaConsistency with
    | ok r => simp [validate_consistency, hdata, hc, generate_quality_report]
    | error e => simp [validate_consistency, hdata, hc, generate_quality_report]
  · simp [assess_questions_quality, hdata]

/-- The parallel phase always leaves a dict whose `questions` value is a
string in the questions slot: the success dict carries the raw response
message and the fallback dict carries its placeholder, and neither stores a
usable `quality_metrics` list. -/
theorem phase2_parallel_questions_str (ctx : Context) (o : Oracle) :
    ∃ d s, (phase2_parallel_generation ctx o).1.questions_result = some d ∧
      d.questions = .str s ∧ d.quality_metrics.getD [] = [] := by
  have htips := generate_answer_tips_async_fails ctx o
  cases hq : o.questionGen with
  | ok msg =>
    refine ⟨{ questions := .str msg
              round_focus := some (question_generator_round_focus ctx.round)
              level := some ctx.level.value
              role := some ctx.role
              status := "completed"
              quality_metrics := none }, msg, ?_, rfl, rfl⟩
    cases hqa : ctx.quality_assurance <;>
      simp [phase2_parallel_generation, generate_questions_async, hq, htips, hqa,
        processGatherResults, processOneResult, toTaskResult]
  | error e =>
    refine ⟨fallbackQuestionsData, "Fallback questions generated", ?_, rfl, rfl⟩
    cases hqa : ctx.quality_assurance <;>
      simp [phase2_parallel_generation, generate_questions_async, hq, htips, hqa,
        processGatherResults, processOneResult, toTaskResult]

/-- Formatting a questions dict that stores a string with no usable
metrics yields the empty questions list. -/
theorem format_questions_str_empty (d : QuestionsData) (s : String) (ctx : Context)
    (hs : d.questions = .str s) (hm : d.quality_metrics.getD [] = []) :
    format_questions (some d) ctx = .ok [] := by
  simp [format_questions, hs, hm]

/-- The weighted overall quality of the fallback quality data is 0.7. -/
theorem calc_quality_fallback : calculate_overall_quality .fallbackData = 7/10 := by
  norm_num [calculate_overall_quality, weightedQuality, listAvg, round2]

/-- The weighted overall quality of the empty quality payload is 0.7. -/
theorem calc_quality_empty : calculate_overall_quality .empty = 7/10 := rfl

/-- The values of a tagged score map built from metric records are exactly
the records' overall scores. -/
theorem enum_map_snd_scores (qm : List QualityMetrics) (tag : String) :
    ((qm.enum.map fun p => (tag ++ toString p.1, p.2.overall_score)).map (·.2)) =
      qm.map (·.overall_score) := by
  rw [List.map_map]
  rw [show ((fun x : String × ℚ => x.2) ∘
      fun p : ℕ × QualityMetrics => (tag ++ toString p.1, p.2.overall_score)) =
    ((fun m : QualityMetrics => m.overall_score) ∘ Prod.snd) from rfl]
  rw [← List.map_map, List.enum_map_snd]

/-- Successful level conversion means the string was one of the five
member values. -/
theorem convert_level_ok (level : String) (l : ExperienceLevel)
    (h : convert_level level = .ok l) :
    level ∈ (["Junior", "Mid", "Senior", "Lead", "Principal"] : List String) := by
  unfold convert_level at h
  repeat' split at h
  all_goals simp_all

/-- Successful round conversion means the integer was in `1..4`. -/
theorem convert_round_ok (round_number : ℤ) (r : InterviewRound)
    (h : convert_round round_number = .ok r) :
    1 ≤ round_number ∧ round_number ≤ 4 := by
  unfold convert_round at h
  repeat' split at h
  all_goals first
    | omega
    | (exact absurd h (by simp))

/-- Successful validation means the stripped role has at least three
characters. -/
theorem validate_inputs_ok (role level : String) (round_number : ℤ)
    (h : validate_inputs role level round_number = .ok ()) :
    ¬role.trim.length < 3 := by
  unfold validate_inputs at h
  repeat' split at h
  all_goals first
    | assumption
    | (exact absurd h (by simp))

/-! ## Claim theorems -/

/-- C9: whenever the underlying agent call inside `validate_consistency`
does not raise, the returned consistency report is the same constant for
every input — `overall_consistency = 0.8`, no issues, the single
recommendation `Content appears consistent`, and all six validation checks
true — so any two non-exception runs, whatever their questions, tips or
context, return identical reports independent of that content. -/
theorem c9_consistency_report_is_constant (questions : List QuestionDict)
    (answers : PyTips) (response : String) :
    validate_consistency (.items questions) answers (.ok response) =
      .ok
        { overall_consistency := 4/5
          issues := []
          recommendations := ["Content appears consistent"]
          validation_checks :=
            { experience_level := true, role_relevance := true, round_focus := true
              difficulty_balance := true, question_variety := true
              answer_alignment := true } } := rfl

/-- C10: `generate_quality_report` divides by the lengths of the
question-metrics and answer-metrics lists with no emptiness guard: it
raises `ZeroDivisionError` exactly when one of the two lists is empty, and
only returns a report when both are non-empty. -/
theorem c10_quality_report_raises_iff_empty
    (question_metrics answer_metrics : List QualityMetrics)
    (consistency_results : ConsistencyResults) :
    generate_quality_report question_metrics answer_metrics consistency_results
        = .error "ZeroDivisionError: division by zero"
      ↔ (question_metrics = [] ∨ answer_metrics = []) := by
  unfold generate_quality_report
  split <;> simp_all

/-- C3: in the parallel Generating phase, for every combination of per-task
outcomes the result-processing stage yields a `ParallelProcessingResult`
(never propagating an exception): a raising task is replaced by its
component's fallback dict and marked `false` in the per-task success map,
every non-raising task's payload is kept unchanged and marked `true`, and
the quality slot follows the optional quality task. -/
theorem c3_parallel_phase_isolates_failures (qOut : Except String QuestionsData)
    (tOut : Except String AnswersData)
    (qualOut : Option (Except String QualityTaskResult)) (t : ℚ) :
    processGatherResults
        ([(toTaskResult .questionsR qOut, "questions"),
          (toTaskResult .answerTipsR tOut, "answer_tips")] ++
         (match qualOut with
          | none => []
          | some u => [(toTaskResult .qualityR u, "quality")])) t =
      { questions_result :=
          some (match qOut with | .ok d => d | .error _ => fallbackQuestionsData)
        answer_tips_result :=
          some (match tOut with | .ok d => d | .error _ => fallbackAnswerTipsData)
        quality_result :=
          (match qualOut with
           | none => .emptyDict
           | some (.ok d) => d
           | some (.error _) => fallbackQualityTask)
        processing_time := t
        success_status :=
          [("questions", qOut.isOk), ("answer_tips", tOut.isOk)] ++
            (match qualOut with | none => [] | some u => [("quality", u.isOk)]) } := by
  rcases qOut with e1 | d1 <;> rcases tOut with e2 | d2 <;>
    rcases qualOut with _ | e3 | d3 <;> rfl

/-- C5: over a list of `n` questions, `generate_answer_tips` returns exactly
`n` tip records in input order; a failing agent call at index `i` yields the
fixed fallback record there — whose evaluation text is the
`Evaluate candidate's response for relevance, specificity, and alignment
with {role} requirements.` template — while every other index with a
succeeding call carries exactly the record derived from that call's
response, so one failure never aborts the batch. -/
theorem c5_per_question_failure_isolated (questions : List QuestionDict)
    (role : String) (oracle : ℕ → Except String String) (i : ℕ) (e : String)
    (hi : i < questions.length) (hfail : oracle i = .error e) :
    ∃ tips, generate_answer_tips (.items questions) role oracle = .ok tips ∧
      tips.length = questions.length ∧
      tips[i]? = some (fallbackTip role questions[i]) ∧
      (fallbackTip role questions[i]).evaluation_tips =
        some ("Evaluate candidate's response for relevance, specificity, and alignment with "
          ++ role ++ " requirements.") ∧
      ∀ j (hj : j < questions.length), j ≠ i → ∀ r, oracle j = .ok r →
        tips[j]? = some (successTip questions[j] r) := by
  refine ⟨_, rfl, by simp [List.enum_length], ?_, rfl, ?_⟩
  · simp [List.getElem?_map, List.getElem?_enum, List.getElem?_eq_getElem hi,
      answerTipRecord, hfail]
  · intro j hj _ r hok
    simp [List.getElem?_map, List.getElem?_enum, List.getElem?_eq_getElem hj,
      answerTipRecord, hok]

/-- Witness for C5 at the concrete five-question batch. -/
theorem c5_per_question_failure_isolated_witness :
    2 < c5questions.length ∧ c5oracle 2 = .error "timeout" ∧
    ∃ tips, generate_answer_tips (.items c5questions) "Backend Engineer" c5oracle = .ok tips ∧
      tips.length = c5questions.length ∧
      tips[2]? = some (fallbackTip "Backend Engineer" (c5questions.get ⟨2, by decide⟩)) := by
  refine ⟨by decide, rfl, ?_⟩
  obtain ⟨tips, h1, h2, h3, -, -⟩ :=
    c5_per_question_failure_isolated c5questions "Backend Engineer" c5oracle 2 "timeout"
      (by decide) rfl
  exact ⟨tips, h1, h2, h3⟩

/-- C8: a request whose experience level is outside the five-member enum,
whose round number is outside `1..4`, or whose (stripped) role string is
shorter than three characters is rejected with a `ValueError` by the public
entry point: the run ends in an error before the coordinator — and hence any
text-generation service call — is ever reached. -/
theorem c8_invalid_request_rejected (jd cv role level : String)
    (round_number num_questions : ℤ) (par qa follow : Bool)
    (h : level ∉ (["Junior", "Mid", "Senior", "Lead", "Principal"] : List String) ∨
      ¬(1 ≤ round_number ∧ round_number ≤ 4) ∨ role.trim.length < 3) :
    (interview_agent_entry jd cv role level round_number num_questions
        par qa follow).isOk = false := by
  unfold interview_agent_entry
  cases hv : validate_inputs role level round_number with
  | error e => rfl
  | ok u =>
    cases hl : convert_level level with
    | error e => rfl
    | ok l =>
      cases hr : convert_round round_number with
      | error e => rfl
      | ok r =>
        exfalso
        rcases h with h | h | h
        · exact h (convert_level_ok level l hl)
        · exact h (convert_round_ok round_number r hr)
        · exact validate_inputs_ok role level round_number hv h

/-- C1 (amended): for every request and every combination of external-call
outcomes the coordinator returns a package whose questions and answer-tips
lists are present (they are lists by construction, never null), whose
overall quality score lies in `[0,1]`; the processing-metrics list is
non-empty whenever the run did not end in the error package, but on a
failure path it holds only the records of the phases completed before the
failure — and is empty when document analysis fails. -/
theorem c1_package_invariants (req : EnhancedInterviewRequest) (o : Oracle) :
    0 ≤ (generate_interview_content_async req o).overall_quality_score ∧
    (generate_interview_content_async req o).overall_quality_score ≤ 1 ∧
    ((generate_interview_content_async req o).generation_metadata.errorFlag = false →
      (generate_interview_content_async req o).processing_metrics ≠ []) := by
  unfold generate_interview_content_async
  cases hdoc : o.doc with
  | error e => norm_num [create_error_response, GenerationMetadata.errorFlag]
  | ok a =>
    cases hpar : req.enable_parallel_processing with
    | false =>
      have htips := generate_answer_tips_async_fails (buildContext req) o
      cases hq : o.questionGen with
      | error e =>
        simp only [hpar, Bool.false_eq_true, if_false,
          phase2_sequential_generation, generate_questions_async, hq, htips]
        norm_num [create_error_response, GenerationMetadata.errorFlag]
      | ok msg =>
        simp only [hpar, Bool.false_eq_true, if_false,
          phase2_sequential_generation, generate_questions_async, hq, htips]
        norm_num [create_error_response, GenerationMetadata.errorFlag]
    | true =>
      rcases hph : phase2_parallel_generation (buildContext req) o with ⟨gen, ms2⟩
      obtain ⟨d, s, hqr, hqs, hqm⟩ := phase2_parallel_questions_str (buildContext req) o
      have hqr' : gen.questions_result = some d := by rw [hph] at hqr; exact hqr
      have hfmt := format_questions_str_empty d s (buildContext req) hqs hqm
      have hperf := perform_qa_falls_back gen o d s hqr' hqs
      cases hqa : req.quality_assurance with
      | true =>
        simp only [hpar, if_true, hph, hqa, hperf, create_final_output, hqr', hfmt]
        norm_num [calc_quality_fallback, create_generation_metadata,
          GenerationMetadata.errorFlag]
        exact List.cons_ne_nil _ _
      | false =>
        simp only [hpar, if_true, hph, hqa, Bool.false_eq_true, if_false,
          create_final_output, hqr', hfmt]
        norm_num [calc_quality_empty, create_generation_metadata,
          GenerationMetadata.errorFlag]
        exact List.cons_ne_nil _ _

/-- Witness for C1 at a concrete request and all-success oracle. -/
theorem c1_package_invariants_witness :
    0 ≤ (generate_interview_content_async (sampleRequest true true) okOracle).overall_quality_score ∧
    (generate_interview_content_async (sampleRequest true true) okOracle).overall_quality_score ≤ 1 ∧
    ((generate_interview_content_async (sampleRequest true true) okOracle).generation_metadata.errorFlag = false →
      (generate_interview_content_async (sampleRequest true true) okOracle).processing_metrics ≠ []) :=
  c1_package_invariants (sampleRequest true true) okOracle

/-- Counterexample for C1 as stated: when document analysis raises, the
returned package's processing-metrics list is empty, not "at least one
entry on every failure path". -/
theorem c1_empty_metrics_counterexample :
    (generate_interview_content_async (sampleRequest true true)
        (docFailOracle "llm unavailable")).processing_metrics = [] := by
  decide

/-- C2 (amended): if document analysis raises, the returned package has the
error flag in its generation metadata, an overall quality score of 0, and
exactly one question record and one answer-tip record; the question's text
embeds the raised error message, while the answer-tip record is one fixed
constant that does not depend on the message. -/
theorem c2_error_package_shape (req : EnhancedInterviewRequest) (o : Oracle)
    (e : String) (h : o.doc = .error e) :
    (generate_interview_content_async req o).generation_metadata.errorFlag = true ∧
    (generate_interview_content_async req o).overall_quality_score = 0 ∧
    (generate_interview_content_async req o).questions =
      [errorQuestion ("Document analysis failed: " ++ e)] ∧
    (generate_interview_content_async req o).answer_tips = [errorAnswerTip] := by
  unfold generate_interview_content_async
  rw [h]
  exact ⟨rfl, rfl, rfl, rfl⟩

/-- Witness for C2 at a concrete failing document analysis. -/
theorem c2_error_package_shape_witness :
    (docFailOracle "model endpoint unreachable").doc = .error "model endpoint unreachable" ∧
    ((generate_interview_content_async (sampleRequest true true)
        (docFailOracle "model endpoint unreachable")).generation_metadata.errorFlag = true ∧
      (generate_interview_content_async (sampleRequest true true)
        (docFailOracle "model endpoint unreachable")).overall_quality_score = 0 ∧
      (generate_interview_content_async (sampleRequest true true)
        (docFailOracle "model endpoint unreachable")).questions =
        [errorQuestion ("Document analysis failed: " ++ "model endpoint unreachable")] ∧
      (generate_interview_content_async (sampleRequest true true)
        (docFailOracle "model endpoint unreachable")).answer_tips = [errorAnswerTip]) :=
  ⟨rfl, c2_error_package_shape (sampleRequest true true)
    (docFailOracle "model endpoint unreachable") "model endpoint unreachable" rfl⟩

set_option maxRecDepth 8000 in
/-- Counterexample for C2 as stated: with the injected message
`storage backend offline`, every question record of the error package
mentions the message but no answer-tip record does — the claim's "both of
which contain the raised error message" fails on the tip record. -/
theorem c2_tip_lacks_message_counterexample :
    ((generate_interview_content_async (sampleRequest true true)
        (docFailOracle "storage backend offline")).questions.all
      fun q => strContains "storage backend offline" q.question) = true ∧
    ((generate_interview_content_async (sampleRequest true true)
        (docFailOracle "storage backend offline")).answer_tips.all
      fun t => tipMentions t "storage backend offline") = false := by
  decide

/-- C6 (amended): over question metrics averaging `a`, answer metrics
averaging `b` and consistency score `c`, `generate_quality_report` grades
with the equal-thirds composition — its assessment label is the one the
0.9 / 0.7 / 0.5 thresholds assign to `(a + b + c) / 3` — while the
formatter's `_calculate_overall_quality` over the assembled quality data
computes `round(0.4*a + 0.4*b + 0.2*c, 2)`.  The two aggregates are computed
independently (neither overwrites the other), but only the formatter's value
is stored numerically; the report keeps just the label derived from the
equal-thirds value. -/
theorem c6_dual_quality_aggregates (qm am : List QualityMetrics)
    (cons : ConsistencyResults) (a b : ℚ)
    (hqm : qm ≠ []) (ham : am ≠ [])
    (ha : listAvg (qm.map (·.overall_score)) = a)
    (hb : listAvg (am.map (·.overall_score)) = b) :
    ∃ rep, generate_quality_report qm am cons = .ok rep ∧
      rep.overall_assessment =
        assessmentLabel ((a + b + cons.overall_consistency) / 3) ∧
      calculate_overall_quality
          (.assessed (qm.enum.map fun p => ("q_" ++ toString p.1, p.2.overall_score))
            (am.enum.map fun p => ("a_" ++ toString p.1, p.2.overall_score)) cons rep) =
        round2 (a * (2/5) + b * (2/5) + cons.overall_consistency * (1/5)) := by
  have hcond : ¬(qm = [] ∨ am = []) := by simp [hqm, ham]
  have hmq : qm.map (·.overall_score) ≠ [] := by simp [hqm]
  have hma : am.map (·.overall_score) ≠ [] := by simp [ham]
  refine ⟨_, by unfold generate_quality_report; rw [if_neg hcond], ?_, ?_⟩
  · show assessmentLabel ((listAvg (qm.map (·.overall_score)) +
      listAvg (am.map (·.overall_score)) + cons.overall_consistency) / 3) = _
    rw [ha, hb]
  · simp only [calculate_overall_quality, weightedQuality,
      enum_map_snd_scores qm "q_", enum_map_snd_scores am "a_"]
    rw [if_neg hmq, if_neg hma, ha, hb]

/-- Witness for C6 at the concrete metrics with `a=0.9`, `b=0.6`, `c=0.3`. -/
theorem c6_dual_quality_aggregates_witness :
    (c6questionMetrics ≠ [] ∧ c6answerMetrics ≠ [] ∧
      listAvg (c6questionMetrics.map (·.overall_score)) = 9/10 ∧
      listAvg (c6answerMetrics.map (·.overall_score)) = 3/5) ∧
    ∃ rep, generate_quality_report c6questionMetrics c6answerMetrics c6consistency = .ok rep ∧
      rep.overall_assessment =
        assessmentLabel ((9/10 + 3/5 + c6consistency.overall_consistency) / 3) ∧
      calculate_overall_quality
          (.assessed (c6questionMetrics.enum.map fun p => ("q_" ++ toString p.1, p.2.overall_score))
            (c6answerMetrics.enum.map fun p => ("a_" ++ toString p.1, p.2.overall_score))
            c6consistency rep) =
        round2 (9/10 * (2/5) + 3/5 * (2/5) + c6consistency.overall_consistency * (1/5)) :=
  ⟨⟨by simp [c6questionMetrics], by simp [c6answerMetrics],
    by norm_num [listAvg, c6questionMetrics, uniformMetrics],
    by norm_num [listAvg, c6answerMetrics, uniformMetrics]⟩,
   c6_dual_quality_aggregates c6questionMetrics c6answerMetrics c6consistency (9/10) (3/5)
     (by simp [c6questionMetrics]) (by simp [c6answerMetrics])
     (by norm_num [listAvg, c6questionMetrics, uniformMetrics])
     (by norm_num [listAvg, c6answerMetrics, uniformMetrics])⟩

/-- Counterexample for C6 as stated: at `a=0.9`, `b=0.6`, `c=0.3` the
equal-thirds value is 0.6 and the weighted value is 0.66; the package built
from these quality inputs stores 0.66 as its overall quality score, differs
by the expected 0.06, but the value 0.6 appears in none of the package's
numeric fields — the claim that "both values appear in the final package"
fails. -/
theorem c6_equal_thirds_absent_counterexample :
    ((9:ℚ)/10 + 3/5 + 3/10) / 3 = 3/5 ∧
    c6package.overall_quality_score = 33/50 ∧
    (33:ℚ)/50 - 3/5 = 3/50 ∧
    (3/5 : ℚ) ∉ packageScores c6package := by
  have hcond : ¬(c6questionMetrics = [] ∨ c6answerMetrics = []) := by
    simp [c6questionMetrics, c6answerMetrics]
  have hrep : generate_quality_report c6questionMetrics c6answerMetrics c6consistency
      = .ok c6report := by
    unfold generate_quality_report
    rw [if_neg hcond]
    refine congrArg Except.ok ?_
    simp only [c6report]
    congr 1
    all_goals
      simp [assessmentLabel, listAvg, c6questionMetrics, c6answerMetrics,
        c6consistency, uniformMetrics]
    all_goals norm_num
  have hpayload : c6payload = .assessed [("q_0", 9/10)] [("a_0", 7/10), ("a_1", 1/2)]
      c6consistency c6report := by
    unfold c6payload
    rw [hrep]
  have hfq := format_questions_str_empty fallbackQuestionsData
    "Fallback questions generated" c6context rfl rfl
  have hcf : create_final_output (some fallbackQuestionsData) (some fallbackAnswerTipsData)
      c6payload [] c6context (.ok "guidance text") (.ok "framework text") =
      .ok { questions := []
            answer_tips := []
            interview_focus := generate_interview_focus c6context
            preparation_tips := parsedInterviewerGuidance.preparation_tips
            overall_quality_score := calculate_overall_quality c6payload
            processing_metrics := []
            quality_report := c6payload
            generation_metadata := create_generation_metadata c6context []
            interview_structure := parsedInterviewerGuidance.interview_structure
            evaluation_framework := parsedEvaluationFramework
            candidate_assessment_guide := parsedInterviewerGuidance.assessment_guide } := by
    simp only [create_final_output, hfq]
  have hpk : c6package =
      { questions := []
        answer_tips := []
        interview_focus := generate_interview_focus c6context
        preparation_tips := parsedInterviewerGuidance.preparation_tips
        overall_quality_score := calculate_overall_quality c6payload
        processing_metrics := []
        quality_report := c6payload
        generation_metadata := create_generation_metadata c6context []
        interview_structure := parsedInterviewerGuidance.interview_structure
        evaluation_framework := parsedEvaluationFramework
        candidate_assessment_guide := parsedInterviewerGuidance.assessment_guide } := by
    unfold c6package
    rw [hcf]
  have hscore : calculate_overall_quality c6payload = 33/50 := by
    rw [hpayload]
    simp [calculate_overall_quality, weightedQuality, listAvg, c6consistency]
    norm_num [round2]
  refine ⟨by norm_num, ?_, by norm_num, ?_⟩
  · rw [hpk]
    exact hscore
  · rw [hpk]
    simp only [packageScores, List.map_nil, List.flatMap_nil, List.nil_append,
      List.append_nil, List.cons_append]
    rw [hscore, hpayload]
    simp only [qualityPayloadScores, c6report, c6consistency, create_generation_metadata,
      List.map_cons, List.map_nil, List.sum_nil, List.nil_append, List.append_nil,
      List.cons_append, List.singleton_append]
    norm_num

set_option maxRecDepth 8000 in
/-- C4 (code bug): when the question-generation call raises on every
invocation, the coordinator's parallel fallback stores only the placeholder
string `Fallback questions generated` under the `questions` key, and the
formatter's zip against the empty `quality_metrics` list drops everything —
the returned package contains zero question records, not the default
template questions the specification mandates. -/
theorem c4_fallback_questions_dropped :
    (generate_interview_content_async (sampleRequest true true)
        { okOracle with questionGen := .error "service unavailable" }).questions = [] := by
  decide

set_option maxRecDepth 8000 in
/-- C7 (code bug): with the same all-success service responses, the parallel
run returns a formatted package with empty questions and answer tips (the
coordinator feeds the tips generator a string, so the tips task always fails
and is silently replaced by its fallback), while the sequential run lets the
same failure unwind into the error package with one error question and the
fixed error tip — the two modes never produce identical content. -/
theorem c7_parallel_sequential_diverge :
    (generate_interview_content_async (sampleRequest true true) okOracle).questions = [] ∧
    (generate_interview_content_async (sampleRequest true true) okOracle).answer_tips = [] ∧
    (generate_interview_content_async (sampleRequest false true) okOracle).questions =
      [errorQuestion
        "Sequential generation failed: Answer tips generation failed: 'str' object has no attribute 'get'"] ∧
    (generate_interview_content_async (sampleRequest false true) okOracle).answer_tips =
      [errorAnswerTip] := by
  refine ⟨by decide, by decide, ?_, ?_⟩ <;> decide

/-- Witness for C8: `level="Intern"` is rejected before any service call. -/
theorem c8_invalid_request_rejected_witness :
    ("Intern" ∉ (["Junior", "Mid", "Senior", "Lead", "Principal"] : List String) ∨
      ¬(1 ≤ (2 : ℤ) ∧ (2 : ℤ) ≤ 4) ∨ ("Software Engineer").trim.length < 3) ∧
    (interview_agent_entry "A job description" "A resume" "Software Engineer" "Intern"
        2 5 true true true).isOk = false :=
  ⟨Or.inl (by decide),
   c8_invalid_request_rejected "A job description" "A resume" "Software Engineer" "Intern"
     2 5 true true true (Or.inl (by decide))⟩

end InterviewAgent
